import Mathlib

/-!
Verification development for the `ultra_deep_mapsite.py` discovery engine
(repository `Suggestic/amanda_scrapping`).

The Python source is shallowly embedded: pure functions become Lean
functions, the stateful crawl scheduler becomes explicit state passing over
an `EngineState` record, and the external fetch collaborator becomes a
function parameter `String → FetchResult`.  Wall-clock timestamps, disk
I/O failures and the Playwright interaction engine are outside the model:
timestamps are carried as unmodified strings, and storage writes always
succeed (the Python code catches write exceptions and logs them; those
exception paths are not modelled).

Regular-expression patterns from the source are embedded as executable
string matchers whose semantics follow Python's `re.search` on the given
fixed patterns (documented at each definition).  All string primitives are
implemented by structural recursion on the character list so that every
definition evaluates inside the kernel.
-/

namespace Mapsite

/-- The `isPrefixOf pre l`: `pre` is a prefix of `l` (decidable, structural). -/
def isPre : List Char → List Char → Bool
  | [], _ => true
  | _ :: _, [] => false
  | a :: as, b :: bs => a = b && isPre as bs

/-- The `containsL l t`: `t` occurs as a contiguous sublist of `l`
(Python's `t in s` on strings). -/
def containsL : List Char → List Char → Bool
  | s, t =>
    isPre t s ||
      match s with
      | [] => false
      | _ :: rest => containsL rest t

/-- Python `t in s` (substring containment). -/
def containsStr (s t : String) : Bool :=
  containsL s.toList t.toList

/-- The `s.startswith(t)` (Python). -/
def startsWithStr (s t : String) : Bool :=
  isPre t.toList s.toList

/-- The `s.endswith(t)` (Python). -/
def endsWithStr (s t : String) : Bool :=
  isPre t.toList.reverse s.toList.reverse

/-- ASCII lowering of one character (the embedded patterns are ASCII, so
Python's `str.lower`/`re.IGNORECASE` behaviour is modelled on ASCII). -/
def lowerChar (c : Char) : Char :=
  if 'A' ≤ c ∧ c ≤ 'Z' then Char.ofNat (c.toNat + 32) else c

/-- Python `s.lower()` (ASCII model). -/
def lowerStr (s : String) : String :=
  ⟨s.toList.map lowerChar⟩

/-- Python `s.rstrip('/')`: remove every trailing `'/'`. -/
def rstripSlash (s : String) : String :=
  ⟨(s.toList.reverse.dropWhile (· = '/')).reverse⟩

/-- Python `s.lstrip('/')`: remove every leading `'/'`. -/
def lstripSlash (s : String) : String :=
  ⟨s.toList.dropWhile (· = '/')⟩

/-- One fuelled step list for replace: replaces every (non-overlapping,
leftmost-first) occurrence of `pat` by `rep`, consuming at least one
character of input per fuel unit. -/
def replaceAux (pat rep : List Char) : Nat → List Char → List Char
  | _, [] => []
  | 0, s => s
  | Nat.succ fuel, c :: rest =>
    if isPre pat (c :: rest) ∧ pat ≠ [] then
      rep ++ replaceAux pat rep fuel ((c :: rest).drop pat.length)
    else c :: replaceAux pat rep fuel rest

/-- Python `s.replace(pat, rep)` (all occurrences, left to right). -/
def replaceStr (s pat rep : String) : String :=
  ⟨replaceAux pat.toList rep.toList s.toList.length s.toList⟩

/-- Characters allowed in a URL scheme after the leading letter
(`urllib.parse` accepts letters, digits, `+`, `-`, `.`). -/
def isSchemeChar (c : Char) : Bool :=
  c.isAlpha || c.isDigit || c = '+' || c = '-' || c = '.'

/-- The part of `url` after a valid `scheme:` prefix; `url` itself when the
prefix up to the first `':'` is not a valid scheme (mirrors how
`urllib.parse.urlparse` splits the scheme off). -/
def afterSchemeL (l : List Char) : List Char :=
  let pre := l.takeWhile (· ≠ ':')
  if pre.length < l.length ∧ pre ≠ [] ∧ pre.all isSchemeChar ∧
      (pre.headD ' ').isAlpha then
    l.drop (pre.length + 1)
  else l

/-- The `urlparse(url).netloc`: after the scheme, a leading `"//"` introduces the
network location, which extends to the next `'/'`, `'?'` or `'#'`. -/
def netlocOf (url : String) : String :=
  let rest := afterSchemeL url.toList
  if isPre ['/', '/'] rest then
    ⟨(rest.drop 2).takeWhile (fun c => c ≠ '/' ∧ c ≠ '?' ∧ c ≠ '#')⟩
  else ""

/-- The `urlparse(url).path`: what remains after scheme and netloc, up to the
first `'?'` or `'#'`. -/
def pathOf (url : String) : String :=
  let rest := afterSchemeL url.toList
  let rest2 :=
    if isPre ['/', '/'] rest then
      (rest.drop 2).dropWhile (fun c => c ≠ '/' ∧ c ≠ '?' ∧ c ≠ '#')
    else rest
  ⟨rest2.takeWhile (fun c => c ≠ '?' ∧ c ≠ '#')⟩

/-- The `UltraDeepMapsite.__init__`:
`base_url.replace('https://', '').replace('http://', '').split('/')[0]`. -/
def baseDomainOf (base_url : String) : String :=
  ⟨((replaceStr (replaceStr base_url "https://" "") "http://" "").toList.takeWhile
      (· ≠ '/'))⟩

/-! ## ContentClassifier (source lines 24–132) -/

/-- The ten high-priority regex source strings, in source order
(`ContentClassifier.high_priority_patterns`). -/
def high_priority_patterns : List String :=
  [ "/ead(/.*)?$", "/conteudos(/.*)?$", "/educacao-a-distancia(/.*)?$",
    "/servicos(/.*)?$", "/eventos(/.*)?$", "/pwa/produtos(/.*)?$",
    "/podcast(/.*)?$", "/receitas(/.*)?$", "/calculadoras(/.*)?$",
    "/acervo(/.*)?$" ]

/-- Semantics of `re.search(base + "(/.*)?$", url, re.IGNORECASE)` for the
high-priority patterns: every such pattern is a literal `base` followed by
`(/.*)?$`, so it matches iff the lowercased URL ends with `base` or
contains `base ++ "/"` (the `.*` then absorbs the remainder of the line).
`(pat.toList.take (pat.toList.length - 7))` strips the common `"(/.*)?$"`
suffix, recovering the literal `base`. -/
def hpMatch (pat url : String) : Bool :=
  let base : String := ⟨pat.toList.take (pat.toList.length - 7)⟩
  let u := lowerStr url
  endsWithStr u base || containsStr u ⟨base.toList ++ ['/']⟩

/-- The `ContentClassifier.exclude_patterns` applied via `re.search` with
`re.IGNORECASE`: `^tel:`, `^mailto:`, `^#`, `/user/logout`, `utm_source=`,
and the social-media host alternation are all literal patterns
(anchored ones become prefix tests, the rest substring containment). -/
def excludeMatch (url : String) : Bool :=
  let u := lowerStr url
  startsWithStr u "tel:" || startsWithStr u "mailto:" || startsWithStr u "#" ||
  containsStr u "/user/logout" || containsStr u "utm_source=" ||
  containsStr u "facebook.com" || containsStr u "twitter.com" ||
  containsStr u "instagram.com" || containsStr u "linkedin.com"

/-- The `ContentClassifier.file_download_patterns` via `re.search` with
`re.IGNORECASE`: the three `\.(alt|...)$` extension alternations become
case-insensitive suffix tests, the directory patterns substring tests. -/
def fileDownloadMatch (url : String) : Bool :=
  let u := lowerStr url
  (["pdf", "doc", "docx", "ppt", "pptx", "xls", "xlsx"].any
      fun ext => endsWithStr u ("." ++ ext)) ||
  (["zip", "rar", "tar", "gz"].any fun ext => endsWithStr u ("." ++ ext)) ||
  (["mp4", "mp3", "avi", "mov", "wmv"].any fun ext => endsWithStr u ("." ++ ext)) ||
  containsStr u "/download/" || containsStr u "/materials/" ||
  containsStr u "/recursos/" || containsStr u "/arquivos/"

/-- The `ContentClassifier.medium_priority_patterns` (literal substrings,
`re.IGNORECASE`). -/
def mediumMatch (url : String) : Bool :=
  let u := lowerStr url
  ["/sobre-nos", "/perguntas-frequentes", "/cadastro", "/meus-cursos",
   "/meus-certificados"].any fun p => containsStr u p

/-- The `ContentClassifier._extract_category` (source lines 111–132): substring
tests on the regex *source string* of the matched pattern. -/
def extract_category (pat : String) : String :=
  if containsStr pat "/ead" then "education"
  else if containsStr pat "/conteudos" then "content"
  else if containsStr pat "/servicos" then "services"
  else if containsStr pat "/eventos" then "events"
  else if containsStr pat "/pwa/produtos" then "products"
  else if containsStr pat "/podcast" then "podcast"
  else if containsStr pat "/receitas" then "recipes"
  else if containsStr pat "/calculadoras" then "calculators"
  else if containsStr pat "/acervo" then "archive"
  else "high_priority"

/-- The `ContentClassifier.classify_url` (source lines 74–109).  Returns
`(category, priority)`; the rule order is: invalid, external, exclude,
file download, first matching high-priority pattern, medium priority,
then the `("general", 1)` catch-all. -/
def classify_url (base_domain url : String) : String × Nat :=
  if url = "" ∨ ¬ startsWithStr url "http" then ("invalid", 0)
  else if ¬ containsStr (netlocOf url) base_domain then ("external", 0)
  else if excludeMatch url then ("excluded", 0)
  else if fileDownloadMatch url then ("file_downloads", 1)
  else
    match high_priority_patterns.find? (fun pat => hpMatch pat url) with
    | some pat => (extract_category pat, 1)
    | none =>
      if mediumMatch url then ("medium_priority", 1)
      else ("general", 1)

/-! ## DiskStorage (source lines 412–570)

`mapsite.json` becomes a `MapsiteData` record.  `discovered_at` /
`last_updated` timestamps come from the wall clock in Python; they are
kept as strings that the model never changes.  The `threading.Lock`
around `add_url_to_mapsite` / `is_url_already_discovered` makes each of
these operations atomic; in the model each is a pure state transformer,
so a run of concurrent invocations is an interleaving, i.e. some
sequential composition of these transformers. -/

/-- One entry of `mapsite_data['discovered_urls']`. -/
structure URLRecord where
  url : String
  category : String
  phase : String
  depth : Nat
deriving DecidableEq, Repr

/-- The persisted `mapsite.json` contents. -/
structure MapsiteData where
  discovered_urls : List URLRecord
  total_count : Nat
  last_updated : String
deriving DecidableEq, Repr

/-- The freshly initialised mapsite file
(`{"discovered_urls": [], "total_count": 0, ...}`, line 429). -/
def initMapsite (t0 : String) : MapsiteData :=
  { discovered_urls := [], total_count := 0, last_updated := t0 }

/-- The `DiskStorage.is_url_already_discovered` (lines 530–538): membership of
`url` in `{item['url'] for item in mapsite_data['discovered_urls']}`. -/
def is_url_already_discovered (m : MapsiteData) (url : String) : Bool :=
  m.discovered_urls.any fun r => r.url = url

/-- The `DiskStorage.add_url_to_mapsite` (lines 494–528): deduplicating insert;
returns `true` and the extended mapsite when the URL is new, `false` and
the unchanged mapsite when it is already present.  `total_count` is
recomputed as the length of the record list (line 514). -/
def add_url_to_mapsite (m : MapsiteData) (url category phase : String)
    (depth : Nat) : Bool × MapsiteData :=
  if is_url_already_discovered m url then (false, m)
  else
    let recs := m.discovered_urls ++ [⟨url, category, phase, depth⟩]
    (true, { discovered_urls := recs, total_count := recs.length,
             last_updated := m.last_updated })

/-- First-occurrence-ordered counting, mirroring
`defaultdict(int)` accumulation followed by `dict(...)` iteration order in
`DiskStorage.get_current_stats`. -/
def bumpCount (k : String) : List (String × Nat) → List (String × Nat)
  | [] => [(k, 1)]
  | (k', n) :: rest =>
    if k' = k then (k', n + 1) :: rest else (k', n) :: bumpCount k rest

/-- Counts of `f r` over the records, in first-occurrence order. -/
def countsBy (f : URLRecord → String) (l : List URLRecord) :
    List (String × Nat) :=
  l.foldl (fun acc r => bumpCount (f r) acc) []

/-- Result of `DiskStorage.get_current_stats` (lines 553–570). -/
structure Stats where
  total_urls : Nat
  categories : List (String × Nat)
  phases : List (String × Nat)
  last_updated : String
deriving DecidableEq, Repr

/-- The `DiskStorage.get_current_stats`. -/
def get_current_stats (m : MapsiteData) : Stats :=
  { total_urls := m.total_count
    categories := countsBy (fun r => r.category) m.discovered_urls
    phases := countsBy (fun r => r.phase) m.discovered_urls
    last_updated := m.last_updated }

/-! ## Engine state and collaborators -/

/-- Result of the fetch collaborator (`firecrawl.scrape_url`): `failure`
models a raised exception, `success links` a response whose extracted
hyperlinks are `links` (an absent or empty `links` attribute is
`success []`).  Links are modelled as strings (the `str(link)` branch of
`_process_complete_response`; the dict branch only extracts the same
string from a wrapper). -/
inductive FetchResult where
  | failure : FetchResult
  | success : List String → FetchResult
deriving DecidableEq, Repr

/-- One saved scrape file in `data/scrapped/`
(`DiskStorage.save_scraped_content`); the serialized response body is
outside the model. -/
structure Artifact where
  url : String
  phase : String
  depth : Nat
  category : String
deriving DecidableEq, Repr

/-- Static configuration: the seed URL and the derived base domain
(`UltraDeepMapsite.__init__`, line 591). -/
structure Ctx where
  base_url : String
  base_domain : String
deriving DecidableEq, Repr

/-- Engine context as built by `UltraDeepMapsite.__init__`. -/
def mkCtx (base_url : String) : Ctx :=
  { base_url := base_url, base_domain := baseDomainOf base_url }

/-- Mutable state of `UltraDeepMapsite`: the disk store, saved artifacts,
the frontier `crawl_queue` of `(url, depth, category)` triples, the
`queued_urls` set (modelled as a duplicate-free list) and the
`failed_urls` set. -/
structure EngineState where
  mapsite : MapsiteData
  artifacts : List Artifact
  queue : List (String × Nat × String)
  queued_urls : List String
  failed_urls : List String
deriving DecidableEq, Repr

/-- Python `set.add`. -/
def setAdd (x : String) (s : List String) : List String :=
  if x ∈ s then s else s ++ [x]

/-- Python `set.discard`. -/
def setDiscard (x : String) (s : List String) : List String :=
  s.filter (· ≠ x)

/-- Fresh engine state over a fresh mapsite. -/
def initState (t0 : String) : EngineState :=
  { mapsite := initMapsite t0, artifacts := [], queue := [],
    queued_urls := [], failed_urls := [] }

/-! ## `_process_complete_response` (source lines 883–922) -/

/-- The relative-URL handling of `_process_complete_response`
(lines 904–910): leading-`'/'` links are joined to the base URL,
`"../"` links are dropped (`continue`), links not starting with `"http"`
are joined with a `'/'` separator, and everything else passes through. -/
def resolveLink (base_url link : String) : Option String :=
  if startsWithStr link "/" then some (rstripSlash base_url ++ link)
  else if startsWithStr link "../" then none
  else if ¬ startsWithStr link "http" then
    some (rstripSlash base_url ++ "/" ++ lstripSlash link)
  else some link

/-- The per-link body of the `for link in firecrawl_response.links` loop:
empty links are skipped, relative links resolved, the result classified,
and kept (and immediately written to the mapsite at `depth + 1`) only if
its priority is positive and it is not already in the accumulator. -/
def processLinkStep (ctx : Ctx) (phase : String) (depth : Nat)
    (acc : List String × EngineState) (link : String) :
    List String × EngineState :=
  if link = "" then acc
  else
    match resolveLink ctx.base_url link with
    | none => acc
    | some url =>
      let cls := classify_url ctx.base_domain url
      if 0 < cls.2 ∧ url ∉ acc.1 then
        (acc.1 ++ [url],
         { acc.2 with
             mapsite := (add_url_to_mapsite acc.2.mapsite url cls.1 phase
               (depth + 1)).2 })
      else acc

/-- The `UltraDeepMapsite._process_complete_response`: saves the scraped
artifact for `source_url`, then resolves, classifies and persists every
link of the response, returning the deduplicated list of kept URLs
(`processed_urls`) together with the updated state. -/
def process_complete_response (ctx : Ctx) (links : List String)
    (source_url phase : String) (depth : Nat) (category : String)
    (st : EngineState) : List String × EngineState :=
  let st1 : EngineState :=
    { st with artifacts := st.artifacts ++ [⟨source_url, phase, depth, category⟩] }
  if links = [] then ([], st1)
  else links.foldl (processLinkStep ctx phase depth) ([], st1)

/-! ## `_crawl_single_url` (source lines 924–949) -/

/-- The `UltraDeepMapsite._crawl_single_url`: fetches `url`; on failure the URL
joins `failed_urls` and `[]` is returned; on success the complete response
is processed and the returned list is post-filtered to URLs not already
discovered on disk (line 943). -/
def crawl_single_url (ctx : Ctx) (fetch : String → FetchResult)
    (url : String) (depth : Nat) (category phase : String)
    (st : EngineState) : List String × EngineState :=
  match fetch url with
  | .failure => ([], { st with failed_urls := setAdd url st.failed_urls })
  | .success links =>
    let new_urls := (process_complete_response ctx links url phase depth category st).1
    let st' := (process_complete_response ctx links url phase depth category st).2
    (new_urls.filter (fun u => ¬ is_url_already_discovered st'.mapsite u), st')

/-! ## Phase 1: foundation discovery (source lines 619–662) -/

/-- The `UltraDeepMapsite.phase1_foundation_discovery`: a single fetch of the
seed URL; an exception or a response without links yields `[]`; otherwise
the complete response is processed (phase `"phase1_foundation"`, depth 0)
and every returned URL with positive priority is appended to the crawl
queue at depth `1` and recorded in `queued_urls`. -/
def phase1_foundation_discovery (ctx : Ctx) (fetch : String → FetchResult)
    (st : EngineState) : List String × EngineState :=
  match fetch ctx.base_url with
  | .failure => ([], st)
  | .success links =>
    if links = [] then ([], st)
    else
      let foundation := (process_complete_response ctx links ctx.base_url
        "phase1_foundation" 0 "homepage" st).1
      let st1 := (process_complete_response ctx links ctx.base_url
        "phase1_foundation" 0 "homepage" st).2
      let st2 := foundation.foldl
        (fun s url =>
          let cls := classify_url ctx.base_domain url
          if 0 < cls.2 then
            { s with queue := s.queue ++ [(url, 1, cls.1)],
                     queued_urls := setAdd url s.queued_urls }
          else s) st1
      (foundation, st2)

/-! ## Phase 2: recursive discovery (source lines 664–720)

The `while self.crawl_queue` loop is embedded with explicit fuel; the
termination theorem shows that fuel equal to the initial queue length
always drains the queue, which is exactly the termination of the Python
loop. -/

/-- The enqueue block for one freshly returned URL (lines 694–701):
enqueue at `depth + 1` only if not already on disk, not already queued,
and classified with positive priority. -/
def enqueueNew (ctx : Ctx) (depth : Nat) (s : EngineState) (nu : String) :
    EngineState :=
  if ¬ is_url_already_discovered s.mapsite nu ∧ nu ∉ s.queued_urls then
    let cls := classify_url ctx.base_domain nu
    if 0 < cls.2 then
      { s with queue := s.queue ++ [(nu, depth + 1, cls.1)],
               queued_urls := setAdd nu s.queued_urls }
    else s
  else s

/-- The `while self.crawl_queue` loop of
`UltraDeepMapsite.phase2_recursive_discovery`.  Each iteration pops the
front entry; an already-discovered URL is skipped (`continue`, line 680,
without touching `queued_urls`); otherwise the URL is crawled, any
returned URLs are appended to the phase result and enqueued at
`depth + 1`, and the URL is discarded from `queued_urls`.  The
accumulator `acc` is `phase2_urls`. -/
def phase2_loop (ctx : Ctx) (fetch : String → FetchResult) :
    EngineState → List String → Nat → EngineState × List String
  | st, acc, 0 => (st, acc)
  | st, acc, Nat.succ fuel =>
    match st.queue with
    | [] => (st, acc)
    | (url, depth, category) :: rest =>
      let stPopped : EngineState := { st with queue := rest }
      if is_url_already_discovered stPopped.mapsite url then
        phase2_loop ctx fetch stPopped acc fuel
      else
        let new_urls := (crawl_single_url ctx fetch url depth category
          "phase2_recursive" stPopped).1
        let st' := (crawl_single_url ctx fetch url depth category
          "phase2_recursive" stPopped).2
        let st'' := if new_urls ≠ [] then
            new_urls.foldl (enqueueNew ctx depth) st'
          else st'
        let st''' : EngineState :=
          { st'' with queued_urls := setDiscard url st''.queued_urls }
        phase2_loop ctx fetch st''' (acc ++ new_urls) fuel

/-- The `UltraDeepMapsite.phase2_recursive_discovery` run to completion: the
loop starting from empty `phase2_urls`, with enough fuel to drain the
queue. -/
def phase2_recursive_discovery (ctx : Ctx) (fetch : String → FetchResult)
    (st : EngineState) : EngineState × List String :=
  phase2_loop ctx fetch st [] st.queue.length

/-! ## URLPatternAnalyzer (source lines 339–409)

The four shape regexes of `_extract_pattern` are embedded as executable
scanners with `re.search` semantics (no anchors, no IGNORECASE):

* `/ead/[^/]+/[^/]+-(\d+)`  and `/conteudos/[^/]+/[^/]+-(\d+)`:
  the literal head, then a non-empty slash-free segment, a `'/'`, and a
  non-empty slash-free run followed by `'-'` and at least one digit;
* `/node/(\d+)`: the literal head followed by a digit;
* `/produtos/[^/]+-(\d+)`: the literal head, then a non-empty slash-free
  run followed by `'-'` and a digit. -/

/-- Scans the current path segment for `'-'` followed by a digit, with at
least one character consumed before the dash (`[^/]+-\d+`); stops at a
`'/'`. -/
def segDashNum : List Char → Bool → Bool
  | [], _ => false
  | c :: rest, consumed =>
    if c = '/' then false
    else if c = '-' ∧ consumed ∧ (rest.headD ' ').isDigit then true
    else segDashNum rest true

/-- The `[^/]+/[^/]+-\d+` anchored at the head of `l`: a non-empty slash-free
first segment, a `'/'`, then `segDashNum`. -/
def twoSegItem (l : List Char) : Bool :=
  let a := l.takeWhile (· ≠ '/')
  if a = [] then false
  else
    match l.drop a.length with
    | '/' :: rest => segDashNum rest false
    | _ => false

/-- The `re.search` of a pattern `head ++ tailShape` over `path`: try the tail
shape at every occurrence of the literal head. -/
def searchShape (head : List Char) (tail : List Char → Bool)
    (path : List Char) : Bool :=
  path.tails.any fun t => isPre head t && tail (t.drop head.length)

/-- The `URLPatternAnalyzer._extract_pattern` (lines 364–381): match the path
of the URL against the four known shapes, in source order, returning the
shape's template key. -/
def extract_pattern (url : String) : Option String :=
  let path := (pathOf url).toList
  if searchShape "/ead/".toList twoSegItem path then
    some "/ead/category/item-\x7bid\x7d"
  else if searchShape "/conteudos/".toList twoSegItem path then
    some "/conteudos/category/item-\x7bid\x7d"
  else if searchShape "/node/".toList (fun t => (t.headD ' ').isDigit) path then
    some "/node/\x7bid\x7d"
  else if searchShape "/produtos/".toList (fun t => segDashNum t false) path then
    some "/produtos/item-\x7bid\x7d"
  else none

/-- First match of `re.search(r'-(\d+)', url)`: the value of the first
maximal digit run that immediately follows a `'-'`. -/
def firstDashNum : List Char → Option Nat
  | [] => none
  | c :: rest =>
    if c = '-' ∧ (rest.headD ' ').isDigit then
      some ((rest.takeWhile (·.isDigit)).foldl
        (fun n d => 10 * n + (d.toNat - 48)) 0)
    else firstDashNum rest

/-- Python `url.rsplit('-', 1)[0]`: everything before the last `'-'`
(the whole string when there is no dash). -/
def rsplitDashBase (url : String) : String :=
  let rev := url.toList.reverse
  let suffix := rev.takeWhile (· ≠ '-')
  if suffix.length = rev.length then url
  else ⟨(rev.drop (suffix.length + 1)).reverse⟩

/-- Minimum of a list of naturals (Python `min`, applied to non-empty
lists only). -/
def listMin : List Nat → Nat
  | [] => 0
  | x :: xs => xs.foldl Nat.min x

/-- The `URLPatternAnalyzer._generate_pattern_variations` (lines 383–409):
collect the first dash-number of every example; when at least three are
found, emit `base ++ "-" ++ i` for every `i` in
`[max(1, min - 10), min + 50)` that is not among the collected IDs, where
`base` is the first example with its final dash suffix removed.  (The
`pattern` argument and `max_id` are unused in the source as well.) -/
def generate_pattern_variations (pattern : String) (examples : List String) :
    List String :=
  let _ := pattern
  let ids := examples.foldl
    (fun acc u => match firstDashNum u.toList with
      | some n => acc ++ [n]
      | none => acc) []
  if 3 ≤ ids.length then
    let min_id := listMin ids
    let start_id := max 1 (min_id - 10)
    let end_id := min_id + 50
    let base_url := rsplitDashBase (examples.headD "")
    (List.range' start_id (end_id - start_id)).foldl
      (fun acc i =>
        if i ∈ ids then acc
        else acc ++ [base_url ++ "-" ++ toString i]) []
  else []

/-- Append `u` to the group of key `p` (creating the group at the end when
absent) — `defaultdict(list)` insertion order. -/
def addToGroup (p u : String) : List (String × List String) →
    List (String × List String)
  | [] => [(p, [u])]
  | (k, g) :: rest =>
    if k = p then (k, g ++ [u]) :: rest else (k, g) :: addToGroup p u rest

/-- One step of the grouping loop of `analyze_patterns` (lines 350–353):
URLs with no recognised shape are dropped, the rest appended to their
shape's group. -/
def groupStep (acc : List (String × List String)) (u : String) :
    List (String × List String) :=
  match extract_pattern u with
  | some p => addToGroup p u acc
  | none => acc

/-- The grouping loop of `analyze_patterns`, starting from accumulated
groups `acc` (a fresh analyzer starts from `[]`). -/
def groupPatterns (urls : List String)
    (acc : List (String × List String)) : List (String × List String) :=
  urls.foldl groupStep acc

/-- One step of the emission loop of `analyze_patterns` (lines 356–360):
a group with at least three examples and a non-empty variation list is
recorded. -/
def analyzeStep (acc : List (String × List String))
    (pg : String × List String) : List (String × List String) :=
  if 3 ≤ pg.2.length then
    let variations := generate_pattern_variations pg.1 pg.2
    if variations ≠ [] then acc ++ [(pg.1, variations)] else acc
  else acc

/-- The `URLPatternAnalyzer.analyze_patterns` (lines 345–362) on a fresh
analyzer: group the URLs by shape, then, for every group with at least
three examples whose generated variation list is non-empty, record
`pattern ↦ variations` in iteration order. -/
def analyze_patterns (urls : List String) : List (String × List String) :=
  (groupPatterns urls []).foldl analyzeStep []

/-- What the emission loop yields for `shape`: the decision taken at the
first group entry carrying `shape` (group keys are pairwise distinct). -/
def analyzeEntry (shape : String) :
    List (String × List String) → Option (List String)
  | [] => none
  | (k, g) :: rest =>
    if k = shape then
      (if 3 ≤ g.length ∧ generate_pattern_variations k g ≠ [] then
        some (generate_pattern_variations k g)
      else none)
    else analyzeEntry shape rest

/-! ## Final summary (source lines 848–880) -/

/-- The data displayed by
`UltraDeepMapsite.save_ultra_comprehensive_results`: the base URL, the
total from the disk stats, the per-category and per-phase counts sorted
by descending count (Python `sorted(..., key=count, reverse=True)` is
stable), and the last-updated stamp.  The function reads only
`self.settings` and `self.storage.get_current_stats()`. -/
structure RunReport where
  base_url : String
  total_urls : Nat
  categories : List (String × Nat)
  phases : List (String × Nat)
  last_updated : String
deriving DecidableEq, Repr

/-- Stable descending insertion by count. -/
def insertDesc (x : String × Nat) : List (String × Nat) →
    List (String × Nat)
  | [] => [x]
  | y :: ys => if y.2 ≤ x.2 then x :: y :: ys else y :: insertDesc x ys

/-- Stable sort by descending count (Python
`sorted(items, key=lambda x: x[1], reverse=True)`). -/
def sortByCountDesc (l : List (String × Nat)) : List (String × Nat) :=
  l.foldr insertDesc []

/-- The `UltraDeepMapsite.save_ultra_comprehensive_results`: the run summary,
computed from the engine state. -/
def save_ultra_comprehensive_results (ctx : Ctx) (st : EngineState) :
    RunReport :=
  let final_stats := get_current_stats st.mapsite
  { base_url := ctx.base_url
    total_urls := final_stats.total_urls
    categories := sortByCountDesc final_stats.categories
    phases := sortByCountDesc final_stats.phases
    last_updated := final_stats.last_updated }

/-! ## N-fold store insertion

`add_url_to_mapsite` holds `self.mapsite_lock` around its whole
read-modify-write (lines 425, 496), so each call is atomic and a group of
concurrent calls with identical arguments executes as the sequential
iteration below. -/

/-- The `n` serialized `add_url_to_mapsite` calls with identical arguments;
returns the list of boolean results in execution order and the final
mapsite. -/
def add_url_n : Nat → MapsiteData → String → String → String → Nat →
    List Bool × MapsiteData
  | 0, m, _, _, _, _ => ([], m)
  | Nat.succ k, m, u, cat, ph, d =>
    let r := add_url_to_mapsite m u cat ph d
    let rest := add_url_n k r.2 u cat ph d
    (r.1 :: rest.1, rest.2)

/-! ## Concrete scenarios used by the claims -/

/-- Engine context for a run configured with `BASE_URL=https://example.com`
(the base URL is an environment variable; the claims' scenarios are
domain-generic). -/
def ctxEx : Ctx := mkCtx "https://example.com"

/-- The seed page's links in the end-to-end seeding scenario. -/
def seedLinks : List String := ["/a", "/b", "http://other.com/c", "tel:123"]

/-- Fetch collaborator returning the scenario links for every URL. -/
def seedFetch : String → FetchResult := fun _ => .success seedLinks

/-- Fresh engine state. -/
def stInit : EngineState := initState "t0"

/-- The Pattern Analyzer scenario inputs. -/
def c3urls : List String :=
  ["/ead/curso/item-10", "/ead/curso/item-12", "/ead/curso/item-15"]

/-- Three URLs sharing the `/node/{id}` shape (which carries a numeric
segment but no dash-number). -/
def nodeUrls : List String := ["/node/1", "/node/2", "/node/3"]

/-- A queue seeded with three URLs not yet present in the store. -/
def stThree : EngineState :=
  { initState "t0" with
      queue := [("https://example.com/u1", 1, "general"),
                ("https://example.com/u2", 1, "general"),
                ("https://example.com/u3", 1, "general")] }

/-- Fetch collaborator whose responses contain no links at all. -/
def emptyFetch : String → FetchResult := fun _ => .success []

/-- State after the phase-1 scenario run (no failures recorded). -/
def stDone : EngineState := (phase1_foundation_discovery ctxEx seedFetch stInit).2

/-- The same state with one failed URL recorded. -/
def stDoneFailed : EngineState :=
  { stDone with failed_urls := ["https://example.com/x"] }

/-- The nine named high-priority categories listed by the spec. -/
def namedCategories : List String :=
  ["education", "content", "services", "events", "products", "podcast",
   "recipes", "calculators", "archive"]

/-! ## Store lemmas -/

theorem add_url_old (m : MapsiteData) (u cat ph : String) (d : Nat)
    (h : is_url_already_discovered m u = true) :
    add_url_to_mapsite m u cat ph d = (false, m) := by
  rw [add_url_to_mapsite, h]; simp

theorem add_url_new (m : MapsiteData) (u cat ph : String) (d : Nat)
    (h : is_url_already_discovered m u = false) :
    add_url_to_mapsite m u cat ph d =
      (true,
       { discovered_urls := m.discovered_urls ++ [URLRecord.mk u cat ph d],
         total_count := m.discovered_urls.length + 1,
         last_updated := m.last_updated }) := by
  rw [add_url_to_mapsite, h]; simp

theorem discovered_add_self (m : MapsiteData) (u cat ph : String) (d : Nat) :
    is_url_already_discovered (add_url_to_mapsite m u cat ph d).2 u = true := by
  by_cases h : is_url_already_discovered m u = true
  · rw [add_url_old m u cat ph d h]; exact h
  · rw [add_url_new m u cat ph d (by simpa using h)]
    simp only [is_url_already_discovered, List.any_eq_true]
    exact ⟨URLRecord.mk u cat ph d, by simp, by simp⟩

theorem discovered_add_mono (m : MapsiteData) (u v cat ph : String) (d : Nat)
    (h : is_url_already_discovered m v = true) :
    is_url_already_discovered (add_url_to_mapsite m u cat ph d).2 v = true := by
  by_cases hu : is_url_already_discovered m u = true
  · rw [add_url_old m u cat ph d hu]; exact h
  · rw [add_url_new m u cat ph d (by simpa using hu)]
    simp only [is_url_already_discovered, List.any_eq_true] at h ⊢
    obtain ⟨r, hr, hru⟩ := h
    exact ⟨r, by simp [hr], hru⟩

theorem filter_url_eq_nil (m : MapsiteData) (u : String)
    (h : is_url_already_discovered m u = false) :
    m.discovered_urls.filter (fun r => r.url = u) = [] := by
  simp only [is_url_already_discovered, List.any_eq_false] at h
  exact List.filter_eq_nil_iff.mpr h

/-- Claim C4: Idempotent insert: starting from any store whose counter is
consistent with its record list and which does not yet hold `u`, two
identical `add_url_to_mapsite` calls return `true` then `false`, the
second call leaves the store unchanged, the store afterwards holds
exactly one record for `u`, and `stats().totalURLs` grows by exactly 1. -/
theorem c4_add_url_idempotent (m : MapsiteData) (u cat ph : String) (d : Nat)
    (hnew : is_url_already_discovered m u = false)
    (hcount : m.total_count = m.discovered_urls.length) :
    (add_url_to_mapsite m u cat ph d).1 = true ∧
    (add_url_to_mapsite (add_url_to_mapsite m u cat ph d).2 u cat ph d).1 = false ∧
    (add_url_to_mapsite (add_url_to_mapsite m u cat ph d).2 u cat ph d).2 =
      (add_url_to_mapsite m u cat ph d).2 ∧
    ((add_url_to_mapsite (add_url_to_mapsite m u cat ph d).2 u cat
        ph d).2.discovered_urls.filter (fun r => r.url = u)).length = 1 ∧
    (get_current_stats (add_url_to_mapsite (add_url_to_mapsite m u cat ph d).2 u
        cat ph d).2).total_urls = (get_current_stats m).total_urls + 1 := by
  have e1 := add_url_new m u cat ph d hnew
  have h1 : is_url_already_discovered (add_url_to_mapsite m u cat ph d).2 u = true :=
    discovered_add_self m u cat ph d
  have e2 : add_url_to_mapsite (add_url_to_mapsite m u cat ph d).2 u cat ph d =
      (false, (add_url_to_mapsite m u cat ph d).2) :=
    add_url_old _ u cat ph d h1
  refine ⟨by rw [e1], by rw [e2], by rw [e2], ?_, ?_⟩
  · rw [e2, e1]
    simp [List.filter_append, filter_url_eq_nil m u hnew]
  · rw [e2, e1]
    simp [get_current_stats, hcount]

theorem add_url_n_known (k : Nat) (m : MapsiteData) (u cat ph : String)
    (d : Nat) (h : is_url_already_discovered m u = true) :
    add_url_n k m u cat ph d = (List.replicate k false, m) := by
  induction k with
  | zero => simp [add_url_n]
  | succ k ih =>
    have e : add_url_to_mapsite m u cat ph d = (false, m) :=
      add_url_old m u cat ph d h
    simp [add_url_n, e, ih, List.replicate_succ]

/-- Claim C10: N concurrent `addURL` calls with identical arguments: each
call is atomic (the whole read-modify-write holds `mapsite_lock`), so a
concurrent group executes as `add_url_n`.  For every `n ≥ 1`, starting
from a store that does not hold `u`, the calls return exactly one `true`
(the first) and `n − 1` `false`s, and exactly one record for `u` is
persisted. -/
theorem c10_concurrent_add_serialized (n : Nat) (m : MapsiteData)
    (u cat ph : String) (d : Nat) (hn : 1 ≤ n)
    (hnew : is_url_already_discovered m u = false) :
    (add_url_n n m u cat ph d).1 = true :: List.replicate (n - 1) false ∧
    (add_url_n n m u cat ph d).1.count true = 1 ∧
    (add_url_n n m u cat ph d).1.count false = n - 1 ∧
    ((add_url_n n m u cat ph d).2.discovered_urls.filter
      (fun r => r.url = u)).length = 1 := by
  obtain ⟨k, rfl⟩ : ∃ k, n = k + 1 := ⟨n - 1, by omega⟩
  have e1 := add_url_new m u cat ph d hnew
  have h1 : (add_url_to_mapsite m u cat ph d).1 = true := by rw [e1]
  have hknown : is_url_already_discovered (add_url_to_mapsite m u cat ph d).2 u = true :=
    discovered_add_self m u cat ph d
  have erest := add_url_n_known k (add_url_to_mapsite m u cat ph d).2 u cat ph d hknown
  refine ⟨?_, ?_, ?_, ?_⟩
  · simp [add_url_n, erest, h1]
  · simp [add_url_n, erest, h1, List.count_cons, List.count_replicate]
  · simp [add_url_n, erest, h1, List.count_cons, List.count_replicate]
  · simp only [add_url_n, erest]
    rw [e1]
    simp [List.filter_append, filter_url_eq_nil m u hnew]

/-- Witness for the idempotent-insert theorem at a concrete store. -/
theorem c4_add_url_idempotent_witness :
    is_url_already_discovered (initMapsite "t0") "https://example.com/a" = false ∧
    (initMapsite "t0").total_count = (initMapsite "t0").discovered_urls.length ∧
    ((add_url_to_mapsite (initMapsite "t0") "https://example.com/a" "general"
        "phase1_foundation" 1).1 = true ∧
     (add_url_to_mapsite (add_url_to_mapsite (initMapsite "t0")
         "https://example.com/a" "general" "phase1_foundation" 1).2
         "https://example.com/a" "general" "phase1_foundation" 1).1 = false ∧
     (add_url_to_mapsite (add_url_to_mapsite (initMapsite "t0")
         "https://example.com/a" "general" "phase1_foundation" 1).2
         "https://example.com/a" "general" "phase1_foundation" 1).2 =
       (add_url_to_mapsite (initMapsite "t0") "https://example.com/a" "general"
         "phase1_foundation" 1).2 ∧
     ((add_url_to_mapsite (add_url_to_mapsite (initMapsite "t0")
         "https://example.com/a" "general" "phase1_foundation" 1).2
         "https://example.com/a" "general" "phase1_foundation"
         1).2.discovered_urls.filter (fun r => r.url = "https://example.com/a")).length = 1 ∧
     (get_current_stats (add_url_to_mapsite (add_url_to_mapsite (initMapsite "t0")
         "https://example.com/a" "general" "phase1_foundation" 1).2
         "https://example.com/a" "general" "phase1_foundation" 1).2).total_urls =
       (get_current_stats (initMapsite "t0")).total_urls + 1) :=
  ⟨by decide, by decide,
   c4_add_url_idempotent (initMapsite "t0") "https://example.com/a" "general"
     "phase1_foundation" 1 (by decide) (by decide)⟩

/-- Witness for the serialized concurrent-insert theorem at `n = 3`. -/
theorem c10_concurrent_add_serialized_witness :
    1 ≤ 3 ∧
    is_url_already_discovered (initMapsite "t0") "https://example.com/a" = false ∧
    ((add_url_n 3 (initMapsite "t0") "https://example.com/a" "general"
        "phase1_foundation" 1).1 = true :: List.replicate (3 - 1) false ∧
     (add_url_n 3 (initMapsite "t0") "https://example.com/a" "general"
        "phase1_foundation" 1).1.count true = 1 ∧
     (add_url_n 3 (initMapsite "t0") "https://example.com/a" "general"
        "phase1_foundation" 1).1.count false = 3 - 1 ∧
     ((add_url_n 3 (initMapsite "t0") "https://example.com/a" "general"
        "phase1_foundation" 1).2.discovered_urls.filter
        (fun r => r.url = "https://example.com/a")).length = 1) :=
  ⟨by decide, by decide,
   c10_concurrent_add_serialized 3 (initMapsite "t0") "https://example.com/a"
     "general" "phase1_foundation" 1 (by decide) (by decide)⟩

/-! ## Scheduler lemmas -/

theorem processLinkStep_snd (ctx : Ctx) (phase : String) (depth : Nat)
    (a : List String × EngineState) (l : String) :
    (processLinkStep ctx phase depth a l).2 =
      { a.2 with mapsite := (processLinkStep ctx phase depth a l).2.mapsite } := by
  obtain ⟨ps, s⟩ := a
  unfold processLinkStep
  by_cases hl : l = ""
  · simp [hl]
  · simp only [hl, if_false]
    rcases resolveLink ctx.base_url l with _ | url
    · rfl
    · simp only []
      by_cases hc : 0 < (classify_url ctx.base_domain url).2 ∧ url ∉ ps
      · rw [if_pos hc]
      · rw [if_neg hc]

theorem processLinkStep_inv (ctx : Ctx) (phase : String) (depth : Nat)
    (ps : List String) (s : EngineState) (l : String)
    (h : ∀ u ∈ ps, is_url_already_discovered s.mapsite u = true) :
    ∀ u ∈ (processLinkStep ctx phase depth (ps, s) l).1,
      is_url_already_discovered
        (processLinkStep ctx phase depth (ps, s) l).2.mapsite u = true := by
  unfold processLinkStep
  by_cases hl : l = ""
  · simpa [hl] using h
  · simp only [hl, if_false]
    rcases resolveLink ctx.base_url l with _ | url
    · exact h
    · simp only []
      by_cases hc : 0 < (classify_url ctx.base_domain url).2 ∧ url ∉ ps
      · rw [if_pos hc]
        intro u hu
        rcases List.mem_append.mp hu with h1 | h2
        · exact discovered_add_mono _ _ _ _ _ _ (h u h1)
        · rw [List.mem_singleton.mp h2]
          exact discovered_add_self _ _ _ _ _
      · rw [if_neg hc]
        exact h

theorem processFold_snd (ctx : Ctx) (phase : String) (depth : Nat) :
    ∀ (links : List String) (a : List String × EngineState),
      (links.foldl (processLinkStep ctx phase depth) a).2 =
        { a.2 with
            mapsite := (links.foldl (processLinkStep ctx phase depth) a).2.mapsite } := by
  intro links
  induction links with
  | nil => intro a; rfl
  | cons l rest ih =>
    intro a
    rw [List.foldl_cons, ih (processLinkStep ctx phase depth a l),
      processLinkStep_snd ctx phase depth a l]

theorem processFold_inv (ctx : Ctx) (phase : String) (depth : Nat) :
    ∀ (links : List String) (a : List String × EngineState),
      (∀ u ∈ a.1, is_url_already_discovered a.2.mapsite u = true) →
      ∀ u ∈ (links.foldl (processLinkStep ctx phase depth) a).1,
        is_url_already_discovered
          (links.foldl (processLinkStep ctx phase depth) a).2.mapsite u = true := by
  intro links
  induction links with
  | nil => intro a h; exact h
  | cons l rest ih =>
    intro a h
    rw [List.foldl_cons]
    refine ih (processLinkStep ctx phase depth a l) ?_
    obtain ⟨ps, s⟩ := a
    exact processLinkStep_inv ctx phase depth ps s l h

/-- Every URL returned by `_process_complete_response` is already present
in the mapsite the function leaves behind (each kept URL is immediately
written by `add_url_to_mapsite`, line 920). -/
theorem process_complete_response_mem (ctx : Ctx) (links : List String)
    (source_url phase : String) (depth : Nat) (category : String)
    (st : EngineState) :
    ∀ u ∈ (process_complete_response ctx links source_url phase depth category st).1,
      is_url_already_discovered
        (process_complete_response ctx links source_url phase depth category
          st).2.mapsite u = true := by
  unfold process_complete_response
  by_cases hl : links = []
  · simp [hl]
  · rw [if_neg hl]
    exact processFold_inv ctx phase depth links _ (by simp)

/-- The `_process_complete_response` only appends one artifact and extends the
mapsite; queue, queued set and failed set are untouched. -/
theorem process_complete_response_snd (ctx : Ctx) (links : List String)
    (source_url phase : String) (depth : Nat) (category : String)
    (st : EngineState) :
    (process_complete_response ctx links source_url phase depth category st).2 =
      { st with
          artifacts := st.artifacts ++ [⟨source_url, phase, depth, category⟩],
          mapsite := (process_complete_response ctx links source_url phase depth
            category st).2.mapsite } := by
  unfold process_complete_response
  by_cases hl : links = []
  · simp [hl]
  · rw [if_neg hl]
    rw [processFold_snd ctx phase depth links]

/-- The post-filter of `_crawl_single_url` (line 943) always yields `[]`:
every URL handed back by `_process_complete_response` is already on disk,
and a failed fetch returns `[]` outright. -/
theorem crawl_single_url_nil (ctx : Ctx) (fetch : String → FetchResult)
    (url : String) (depth : Nat) (category phase : String) (st : EngineState) :
    (crawl_single_url ctx fetch url depth category phase st).1 = [] := by
  unfold crawl_single_url
  rcases fetch url with _ | links
  · rfl
  · simp only []
    refine List.filter_eq_nil_iff.mpr ?_
    intro u hu
    have hd := process_complete_response_mem ctx links url phase depth category st u hu
    simp [hd]

/-- The `_crawl_single_url` never touches the queue or the queued set. -/
theorem crawl_single_url_snd (ctx : Ctx) (fetch : String → FetchResult)
    (url : String) (depth : Nat) (category phase : String) (st : EngineState) :
    (crawl_single_url ctx fetch url depth category phase st).2.queue = st.queue ∧
    (crawl_single_url ctx fetch url depth category phase st).2.queued_urls =
      st.queued_urls := by
  unfold crawl_single_url
  rcases fetch url with _ | links
  · exact ⟨rfl, rfl⟩
  · simp only []
    rw [process_complete_response_snd ctx links url phase depth category st]
    exact ⟨rfl, rfl⟩

/-- Phase 2 never adds to `phase2_urls`: the loop returns its accumulator
unchanged, because every crawl comes back empty. -/
theorem phase2_loop_acc (ctx : Ctx) (fetch : String → FetchResult) :
    ∀ (fuel : Nat) (st : EngineState) (acc : List String),
      (phase2_loop ctx fetch st acc fuel).2 = acc := by
  intro fuel
  induction fuel with
  | zero => intro st acc; rfl
  | succ fuel ih =>
    intro st acc
    obtain ⟨ms, arts, q, qus, fus⟩ := st
    rcases q with _ | ⟨⟨url, depth, category⟩, rest⟩
    · rfl
    · simp only [phase2_loop]
      by_cases hd : is_url_already_discovered ms url = true
      · rw [if_pos hd]
        exact ih _ _
      · rw [if_neg hd]
        rw [crawl_single_url_nil]
        simp only [ne_eq, not_true_eq_false, if_false, List.append_nil]
        exact ih _ _

/-- Phase 2 never enqueues: the queue of every state the loop reaches is a
suffix of the initial queue. -/
theorem phase2_loop_queue_suffix (ctx : Ctx) (fetch : String → FetchResult) :
    ∀ (fuel : Nat) (st : EngineState) (acc : List String),
      (phase2_loop ctx fetch st acc fuel).1.queue <:+ st.queue := by
  intro fuel
  induction fuel with
  | zero => intro st acc; exact List.suffix_refl _
  | succ fuel ih =>
    intro st acc
    obtain ⟨ms, arts, q, qus, fus⟩ := st
    rcases q with _ | ⟨⟨url, depth, category⟩, rest⟩
    · exact List.suffix_refl _
    · simp only [phase2_loop]
      by_cases hd : is_url_already_discovered ms url = true
      · rw [if_pos hd]
        exact (ih _ _).trans (List.suffix_cons _ _)
      · rw [if_neg hd]
        rw [crawl_single_url_nil]
        simp only [ne_eq, not_true_eq_false, if_false, List.append_nil]
        refine ((ih _ _).trans ?_).trans (List.suffix_cons _ _)
        rw [(crawl_single_url_snd ctx fetch url depth category
          "phase2_recursive" ⟨ms, arts, rest, qus, fus⟩).1]

/-- Fuel equal to the current queue length always drains the queue: the
`while self.crawl_queue` loop terminates after exactly one dequeue per
initial queue entry. -/
theorem phase2_loop_drain (ctx : Ctx) (fetch : String → FetchResult) :
    ∀ (fuel : Nat) (st : EngineState) (acc : List String),
      fuel = st.queue.length →
      (phase2_loop ctx fetch st acc fuel).1.queue = [] := by
  intro fuel
  induction fuel with
  | zero =>
    intro st acc h
    exact (List.length_eq_zero.mp h.symm)
  | succ fuel ih =>
    intro st acc h
    obtain ⟨ms, arts, q, qus, fus⟩ := st
    rcases q with _ | ⟨⟨url, depth, category⟩, rest⟩
    · exact absurd h (by simp)
    · simp only [List.length_cons, Nat.succ.injEq] at h
      simp only [phase2_loop]
      by_cases hd : is_url_already_discovered ms url = true
      · rw [if_pos hd]
        exact ih _ acc h
      · rw [if_neg hd]
        rw [crawl_single_url_nil]
        simp only [ne_eq, not_true_eq_false, if_false, List.append_nil]
        refine ih _ acc ?_
        have hq := (crawl_single_url_snd ctx fetch url depth category
          "phase2_recursive" ⟨ms, arts, rest, qus, fus⟩).1
        simpa [hq] using h

/-- The dequeue re-check (lines 679–682): a dequeued URL already on disk is
skipped — the iteration just pops it, consults no fetch, and continues. -/
theorem phase2_loop_skip (ctx : Ctx) (fetch : String → FetchResult)
    (st : EngineState) (acc : List String) (fuel : Nat)
    (url : String) (depth : Nat) (category : String)
    (rest : List (String × Nat × String))
    (hq : st.queue = (url, depth, category) :: rest)
    (hd : is_url_already_discovered st.mapsite url = true) :
    phase2_loop ctx fetch st acc (fuel + 1) =
      phase2_loop ctx fetch { st with queue := rest } acc fuel := by
  obtain ⟨ms, arts, q, qus, fus⟩ := st
  have hq' : q = (url, depth, category) :: rest := hq
  subst hq'
  simp only [phase2_loop]
  rw [if_pos hd]

/-! ## Claim theorems -/

/-- Claim C1, counterexample: In the end-to-end seeding scenario with links
`[/a, /b, http://other.com/c, tel:123]`, the claim fails on the tel link:
`tel:123` is not classified `("excluded", 0)` — raw it is
`("invalid", 0)`, and in the pipeline it is first rewritten to
`base_url ++ "/tel:123"`, which classifies as `("general", 1)` — and the
frontier receives three URLs, not exactly `/a` and `/b`. -/
theorem c1_seed_scenario_counterexample :
    classify_url ctxEx.base_domain "tel:123" ≠ ("excluded", 0) ∧
    resolveLink ctxEx.base_url "tel:123" = some "https://example.com/tel:123" ∧
    classify_url ctxEx.base_domain "https://example.com/tel:123" ≠ ("excluded", 0) ∧
    (phase1_foundation_discovery ctxEx seedFetch stInit).2.queue ≠
      [("https://example.com/a", 1, "general"),
       ("https://example.com/b", 1, "general")] ∧
    (phase1_foundation_discovery ctxEx seedFetch stInit).2.queue.length = 3 := by
  decide

/-- Claim C1, amended: End-to-end seeding scenario: the resolved `/a` and
`/b` classify as `("general", 1)`, the external link as `("external", 0)`;
the tel link is rewritten to `base_url ++ "/tel:123"` which classifies as
`("general", 1)`, so the three same-domain URLs (including the rewritten
tel link) are returned by processing and enqueued on the frontier, each at
depth 1. -/
theorem c1_seed_scenario_amended :
    classify_url ctxEx.base_domain "https://example.com/a" = ("general", 1) ∧
    classify_url ctxEx.base_domain "https://example.com/b" = ("general", 1) ∧
    classify_url ctxEx.base_domain "http://other.com/c" = ("external", 0) ∧
    classify_url ctxEx.base_domain "https://example.com/tel:123" = ("general", 1) ∧
    (phase1_foundation_discovery ctxEx seedFetch stInit).1 =
      ["https://example.com/a", "https://example.com/b",
       "https://example.com/tel:123"] ∧
    (phase1_foundation_discovery ctxEx seedFetch stInit).2.queue =
      [("https://example.com/a", 1, "general"),
       ("https://example.com/b", 1, "general"),
       ("https://example.com/tel:123", 1, "general")] := by
  decide

/-- Claim C2: Every URL in the list returned by
`_process_complete_response` is already in the persistent store when the
function returns; consequently the post-filter in `_crawl_single_url`
always yields `[]`, the recursive phase's result list stays empty, and
the recursive phase never enqueues anything (its queue only shrinks, so
every reachable queue is a suffix of the initial one). -/
theorem c2_links_stored_before_return :
    (∀ (ctx : Ctx) (links : List String) (source_url phase : String)
        (depth : Nat) (category : String) (st : EngineState),
      ∀ u ∈ (process_complete_response ctx links source_url phase depth
          category st).1,
        is_url_already_discovered (process_complete_response ctx links
          source_url phase depth category st).2.mapsite u = true) ∧
    (∀ (ctx : Ctx) (fetch : String → FetchResult) (url : String) (depth : Nat)
        (category phase : String) (st : EngineState),
      (crawl_single_url ctx fetch url depth category phase st).1 = []) ∧
    (∀ (ctx : Ctx) (fetch : String → FetchResult) (st : EngineState) (fuel : Nat),
      (phase2_loop ctx fetch st [] fuel).2 = []) ∧
    (∀ (ctx : Ctx) (fetch : String → FetchResult) (st : EngineState)
        (acc : List String) (fuel : Nat),
      (phase2_loop ctx fetch st acc fuel).1.queue <:+ st.queue) :=
  ⟨process_complete_response_mem, crawl_single_url_nil,
   fun ctx fetch st fuel => phase2_loop_acc ctx fetch fuel st [],
   fun ctx fetch st acc fuel => phase2_loop_queue_suffix ctx fetch fuel st acc⟩

/-- Witness for C2 at the concrete seed response: `/a` is in the returned
list and already discovered in the resulting store. -/
theorem c2_links_stored_before_return_witness :
    "https://example.com/a" ∈ (process_complete_response ctxEx seedLinks
      "https://example.com" "phase1_foundation" 0 "homepage" stInit).1 ∧
    is_url_already_discovered (process_complete_response ctxEx seedLinks
      "https://example.com" "phase1_foundation" 0 "homepage"
      stInit).2.mapsite "https://example.com/a" = true :=
  ⟨by decide,
   c2_links_stored_before_return.1 ctxEx seedLinks "https://example.com"
     "phase1_foundation" 0 "homepage" stInit "https://example.com/a" (by decide)⟩

/-- Claim C3, counterexample: On inputs
`{/ead/curso/item-10, /ead/curso/item-12, /ead/curso/item-15}` the
analyzer's template key is `/ead/category/item-{id}` (a fixed string),
not `/ead/curso/item-{id}`; and the candidate range is
`[max(1, 10-10), 10+50) = [1, 60)` — IDs through 59, not through
`15+50-1 = 64`: candidate `-60` is absent and the candidate count is 56,
not the 61 the claimed range `[1, 65) ∖ {10,12,15}` would give. -/
theorem c3_pattern_scenario_counterexample :
    List.lookup "/ead/curso/item-\x7bid\x7d" (analyze_patterns c3urls) = none ∧
    (analyze_patterns c3urls).map Prod.fst = ["/ead/category/item-\x7bid\x7d"] ∧
    "/ead/curso/item-60" ∉ ((analyze_patterns c3urls).headD ("", [])).2 ∧
    ((analyze_patterns c3urls).headD ("", [])).2.length ≠ 61 := by
  decide

/-- Claim C3, amended: On those inputs the analyzer proposes exactly the
template key `/ead/category/item-{id}` with candidates
`/ead/curso/item-i` for every `i ∈ [max(1, 10−10), 10+50) = [1, 60)`
excluding the observed IDs `{10, 12, 15}`. -/
theorem c3_pattern_scenario_amended :
    analyze_patterns c3urls =
      [("/ead/category/item-\x7bid\x7d",
        ((List.range' 1 59).filter (fun i => i ∉ [10, 12, 15])).map
          (fun i => "/ead/curso/item-" ++ toString i))] := by
  decide

/-- Claim C5, counterexample: Phase 1 enqueues URLs that are already in the
store: after the seed response is processed, `/a` is in the mapsite, and
phase 1 then puts it on the frontier anyway (the store check is absent
from the phase-1 enqueue loop, lines 649–654). -/
theorem c5_dedup_counterexample :
    is_url_already_discovered (process_complete_response ctxEx seedLinks
      "https://example.com" "phase1_foundation" 0 "homepage"
      stInit).2.mapsite "https://example.com/a" = true ∧
    (phase1_foundation_discovery ctxEx seedFetch stInit).2.queue =
      [("https://example.com/a", 1, "general"),
       ("https://example.com/b", 1, "general"),
       ("https://example.com/tel:123", 1, "general")] := by
  decide

/-- Claim C5, amended: Store-authoritative dedup holds for phase 2 but not
phase 1: (i) on dequeue, a URL already known to the store is skipped
without any fetch — the loop just pops it; (ii) phase 2 itself never
enqueues anything (every reachable queue is a suffix of the initial one);
but (iii) phase 1 enqueues URLs already present in the store — in the
seed scenario `/a` is stored by response processing and enqueued
afterwards. -/
theorem c5_dedup_amended :
    (∀ (ctx : Ctx) (fetch : String → FetchResult) (st : EngineState)
        (acc : List String) (fuel : Nat) (url : String) (depth : Nat)
        (category : String) (rest : List (String × Nat × String)),
      st.queue = (url, depth, category) :: rest →
      is_url_already_discovered st.mapsite url = true →
      phase2_loop ctx fetch st acc (fuel + 1) =
        phase2_loop ctx fetch { st with queue := rest } acc fuel) ∧
    (∀ (ctx : Ctx) (fetch : String → FetchResult) (st : EngineState)
        (acc : List String) (fuel : Nat),
      (phase2_loop ctx fetch st acc fuel).1.queue <:+ st.queue) ∧
    (is_url_already_discovered (process_complete_response ctxEx seedLinks
        "https://example.com" "phase1_foundation" 0 "homepage"
        stInit).2.mapsite "https://example.com/a" = true ∧
     ("https://example.com/a", 1, "general") ∈
       (phase1_foundation_discovery ctxEx seedFetch stInit).2.queue) :=
  ⟨fun ctx fetch st acc fuel url depth category rest hq hd =>
      phase2_loop_skip ctx fetch st acc fuel url depth category rest hq hd,
   fun ctx fetch st acc fuel => phase2_loop_queue_suffix ctx fetch fuel st acc,
   by decide, by decide⟩

/-- Witness for C5's skip equation at the post-phase-1 state, whose queue
head `/a` is already stored. -/
theorem c5_dedup_amended_witness :
    stDone.queue = ("https://example.com/a", 1, "general") ::
      [("https://example.com/b", 1, "general"),
       ("https://example.com/tel:123", 1, "general")] ∧
    is_url_already_discovered stDone.mapsite "https://example.com/a" = true ∧
    phase2_loop ctxEx emptyFetch stDone [] (0 + 1) =
      phase2_loop ctxEx emptyFetch
        { stDone with
            queue := [("https://example.com/b", 1, "general"),
                      ("https://example.com/tel:123", 1, "general")] } [] 0 :=
  ⟨by decide, by decide,
   c5_dedup_amended.1 ctxEx emptyFetch stDone [] 0 "https://example.com/a" 1
     "general" _ (by decide) (by decide)⟩

/-- Claim C8, counterexample: Three queued URLs not yet in the store, whose
fetches return no links, drain the queue but leave `totalURLs = 0`, not 3:
fetched URLs themselves are never added to the mapsite — only their
outbound links would be. -/
theorem c8_termination_counterexample :
    (get_current_stats (phase2_recursive_discovery ctxEx emptyFetch
      stThree).1.mapsite).total_urls = 0 ∧
    (get_current_stats (phase2_recursive_discovery ctxEx emptyFetch
      stThree).1.mapsite).total_urls ≠ 3 := by
  decide

/-- Claim C8, amended: The recursive scheduler halts exactly when its queue
is empty, with no depth or URL-count cap: fuel equal to the queue length
always drains the queue (one dequeue per entry).  In the 3-URL scenario
the queue is empty after exactly 3 dequeues (not after 2), and
`totalURLs` is unchanged at 0, since fetched URLs are not themselves
recorded in the store. -/
theorem c8_termination_amended :
    (∀ (ctx : Ctx) (fetch : String → FetchResult) (st : EngineState)
        (acc : List String),
      (phase2_loop ctx fetch st acc st.queue.length).1.queue = []) ∧
    ((phase2_recursive_discovery ctxEx emptyFetch stThree).1.queue = [] ∧
     (phase2_loop ctxEx emptyFetch stThree [] 2).1.queue ≠ [] ∧
     (get_current_stats (phase2_recursive_discovery ctxEx emptyFetch
       stThree).1.mapsite).total_urls = 0) :=
  ⟨fun ctx fetch st acc => phase2_loop_drain ctx fetch st.queue.length st acc rfl,
   by decide, by decide, by decide⟩

/-- Claim C9, counterexample: The final summary does not report the failed
URL count: two engine states that differ only in `failed_urls` (zero vs
one failure) produce identical summaries, so no summary field carries the
failure count. -/
theorem c9_summary_counterexample :
    save_ultra_comprehensive_results ctxEx stDoneFailed =
      save_ultra_comprehensive_results ctxEx stDone ∧
    stDoneFailed.failed_urls.length ≠ stDone.failed_urls.length := by
  decide

/-- Claim C9, amended: The final summary reports the total discovered URL
count, the per-category counts, the per-phase counts and the last-updated
stamp, all taken from the store's statistics — and it is invariant under
the failed-URL set, whose size it never reports. -/
theorem c9_summary_amended (ctx : Ctx) (st : EngineState)
    (failed : List String) :
    save_ultra_comprehensive_results ctx { st with failed_urls := failed } =
      save_ultra_comprehensive_results ctx st ∧
    (save_ultra_comprehensive_results ctx st).total_urls =
      (get_current_stats st.mapsite).total_urls ∧
    (save_ultra_comprehensive_results ctx st).categories =
      sortByCountDesc (get_current_stats st.mapsite).categories ∧
    (save_ultra_comprehensive_results ctx st).phases =
      sortByCountDesc (get_current_stats st.mapsite).phases ∧
    (save_ultra_comprehensive_results ctx st).last_updated =
      (get_current_stats st.mapsite).last_updated :=
  ⟨rfl, rfl, rfl, rfl, rfl⟩

/-- Claim C7, counterexample: A same-domain URL matching only the
distance-learning high-priority pattern is classified `"high_priority"`,
which is not among the nine named categories the claim lists:
`_extract_category` has no branch for `/educacao-a-distancia`. -/
theorem c7_high_priority_counterexample :
    classify_url "example.com" "https://example.com/educacao-a-distancia" =
      ("high_priority", 1) ∧
    "high_priority" ∉ namedCategories := by
  decide

/-- Claim C7, amended: For every URL that passes the http and same-domain
checks, matches no exclude and no file-download pattern, and matches some
high-priority pattern, `classify_url` returns priority 1 with the
category extracted from the *first* matching pattern; that category is
one of the nine named ones, except for the distance-learning pattern
which yields `"high_priority"`. -/
theorem c7_high_priority_amended (base_domain url pat : String)
    (h1 : startsWithStr url "http" = true)
    (h2 : containsStr (netlocOf url) base_domain = true)
    (h3 : excludeMatch url = false)
    (h4 : fileDownloadMatch url = false)
    (h5 : high_priority_patterns.find? (fun p => hpMatch p url) = some pat) :
    classify_url base_domain url = (extract_category pat, 1) ∧
    (extract_category pat ∈ namedCategories ∨
      (pat = "/educacao-a-distancia(/.*)?$" ∧
        extract_category pat = "high_priority")) := by
  constructor
  · have hne : ¬ (url = "" ∨ ¬ startsWithStr url "http" = true) := by
      rintro (rfl | hs)
      · exact absurd h1 (by decide)
      · exact hs h1
    rw [classify_url, if_neg hne,
      if_neg (show ¬ ¬ containsStr (netlocOf url) base_domain = true by
        simp [h2]),
      if_neg (show ¬ excludeMatch url = true by simp [h3]),
      if_neg (show ¬ fileDownloadMatch url = true by simp [h4]), h5]
  · have hmem : pat ∈ high_priority_patterns := List.mem_of_find?_eq_some h5
    have hall : ∀ q ∈ high_priority_patterns,
        extract_category q ∈ namedCategories ∨
          (q = "/educacao-a-distancia(/.*)?$" ∧
            extract_category q = "high_priority") := by decide
    exact hall pat hmem

/-- Witness for C7 at `https://example.com/ead`, whose first matching
pattern is `/ead(/.*)?$` with category `education`. -/
theorem c7_high_priority_amended_witness :
    startsWithStr "https://example.com/ead" "http" = true ∧
    containsStr (netlocOf "https://example.com/ead") "example.com" = true ∧
    excludeMatch "https://example.com/ead" = false ∧
    fileDownloadMatch "https://example.com/ead" = false ∧
    high_priority_patterns.find?
      (fun p => hpMatch p "https://example.com/ead") = some "/ead(/.*)?$" ∧
    (classify_url "example.com" "https://example.com/ead" =
        (extract_category "/ead(/.*)?$", 1) ∧
      (extract_category "/ead(/.*)?$" ∈ namedCategories ∨
        ("/ead(/.*)?$" = "/educacao-a-distancia(/.*)?$" ∧
          extract_category "/ead(/.*)?$" = "high_priority"))) :=
  ⟨by decide, by decide, by decide, by decide, by decide,
   c7_high_priority_amended "example.com" "https://example.com/ead"
     "/ead(/.*)?$" (by decide) (by decide) (by decide) (by decide) (by decide)⟩

/-! ## Pattern-analyzer lemmas (for C6) -/

theorem lookup_cons' {β : Type} (a k : String) (v : β) (l : List (String × β)) :
    List.lookup a ((k, v) :: l) = if a = k then some v else List.lookup a l := by
  by_cases h : a = k
  · simp [List.lookup, h]
  · have hb : (a == k) = false := beq_eq_false_iff_ne.mpr h
    simp [List.lookup, hb, h]

theorem lookup_append' {β : Type} (a : String) (l l' : List (String × β)) :
    List.lookup a (l ++ l') =
      match List.lookup a l with
      | some v => some v
      | none => List.lookup a l' := by
  induction l with
  | nil => rfl
  | cons kv rest ih =>
    obtain ⟨k, v⟩ := kv
    by_cases h : a = k
    · simp [lookup_cons', h]
    · simp [lookup_cons', h, ih]

theorem lookup_addToGroup (p u shape : String)
    (acc : List (String × List String)) :
    List.lookup shape (addToGroup p u acc) =
      if shape = p then some ((List.lookup p acc).getD [] ++ [u])
      else List.lookup shape acc := by
  induction acc with
  | nil =>
    by_cases h : shape = p <;> simp [addToGroup, lookup_cons', h]
  | cons kv rest ih =>
    obtain ⟨k, g⟩ := kv
    by_cases hk : k = p
    · subst hk
      by_cases h : shape = k
      · subst h
        simp [addToGroup, lookup_cons']
      · simp [addToGroup, lookup_cons', h]
    · rw [show addToGroup p u ((k, g) :: rest) =
          (k, g) :: addToGroup p u rest by simp [addToGroup, hk]]
      by_cases h : shape = k
      · subst h
        have hsp : ¬ shape = p := hk
        simp [lookup_cons', hsp]
      · have hpk : ¬ p = k := fun e => hk e.symm
        simp [lookup_cons', h, ih, hpk]

theorem lookup_groupPatterns (shape : String) :
    ∀ (urls : List String) (acc : List (String × List String)),
      List.lookup shape (groupPatterns urls acc) =
        match List.lookup shape acc with
        | some g =>
          some (g ++ urls.filter (fun u => extract_pattern u = some shape))
        | none =>
          if urls.filter (fun u => extract_pattern u = some shape) = [] then none
          else some (urls.filter (fun u => extract_pattern u = some shape)) := by
  intro urls
  induction urls with
  | nil =>
    intro acc
    cases h : List.lookup shape acc <;> simp [groupPatterns, h]
  | cons u rest ih =>
    intro acc
    rw [show groupPatterns (u :: rest) acc =
        groupPatterns rest (groupStep acc u) from rfl]
    rw [ih (groupStep acc u)]
    cases hx : extract_pattern u with
    | none =>
      have hf : (decide (extract_pattern u = some shape)) = false := by
        simp [hx]
      rw [show groupStep acc u = acc by simp [groupStep, hx]]
      simp only [List.filter_cons, hf, Bool.false_eq_true, if_false]
    | some p =>
      rw [show groupStep acc u = addToGroup p u acc by simp [groupStep, hx]]
      by_cases hsp : shape = p
      · subst hsp
        have ht : (decide (extract_pattern u = some shape)) = true := by
          simp [hx]
        simp only [List.filter_cons, ht, if_true]
        rw [lookup_addToGroup shape u shape acc, if_pos rfl]
        cases hacc : List.lookup shape acc <;> simp [hacc]
      · have hf : (decide (extract_pattern u = some shape)) = false := by
          rw [hx]
          simpa using Ne.symm hsp
        simp only [List.filter_cons, hf, Bool.false_eq_true, if_false]
        rw [lookup_addToGroup p u shape acc, if_neg hsp]

theorem addToGroup_keys (p u : String) :
    ∀ acc : List (String × List String),
      (addToGroup p u acc).map Prod.fst =
        if p ∈ acc.map Prod.fst then acc.map Prod.fst
        else acc.map Prod.fst ++ [p] := by
  intro acc
  induction acc with
  | nil => simp [addToGroup]
  | cons kv rest ih =>
    obtain ⟨k, g⟩ := kv
    by_cases hk : k = p
    · subst hk
      simp [addToGroup]
    · have hne : ¬ p = k := fun e => hk e.symm
      simp only [addToGroup, if_neg hk, List.map_cons, List.mem_cons, hne,
        false_or]
      rw [ih]
      by_cases hm : p ∈ rest.map Prod.fst <;> simp [hm]

theorem groupPatterns_keys_nodup :
    ∀ (urls : List String) (acc : List (String × List String)),
      (acc.map Prod.fst).Nodup → ((groupPatterns urls acc).map Prod.fst).Nodup := by
  intro urls
  induction urls with
  | nil => intro acc h; exact h
  | cons u rest ih =>
    intro acc h
    rw [show groupPatterns (u :: rest) acc =
        groupPatterns rest (groupStep acc u) from rfl]
    refine ih (groupStep acc u) ?_
    cases hx : extract_pattern u with
    | none => simpa [groupStep, hx] using h
    | some p =>
      rw [show groupStep acc u = addToGroup p u acc by simp [groupStep, hx]]
      rw [addToGroup_keys]
      by_cases hm : p ∈ acc.map Prod.fst
      · rwa [if_pos hm]
      · rw [if_neg hm]
        refine List.nodup_append.mpr ⟨h, List.nodup_singleton p, ?_⟩
        intro a ha hpa
        rw [List.mem_singleton.mp hpa] at ha
        exact hm ha

theorem lookup_analyzeStep_ne (shape : String)
    (acc : List (String × List String)) (kg : String × List String)
    (h : ¬ shape = kg.1) :
    List.lookup shape (analyzeStep acc kg) = List.lookup shape acc := by
  obtain ⟨k, g⟩ := kg
  unfold analyzeStep
  by_cases h3 : 3 ≤ g.length
  · simp only [if_pos h3]
    by_cases hv : generate_pattern_variations k g ≠ []
    · simp only [if_pos hv]
      rw [lookup_append']
      cases hacc : List.lookup shape acc <;> simp [hacc, lookup_cons', h]
    · simp only [if_neg hv]
  · simp only [if_neg h3]

theorem lookup_analyzeFold_notmem (shape : String) :
    ∀ (gs : List (String × List String)) (acc : List (String × List String)),
      shape ∉ gs.map Prod.fst →
      List.lookup shape (gs.foldl analyzeStep acc) = List.lookup shape acc := by
  intro gs
  induction gs with
  | nil => intro acc _; rfl
  | cons kg rest ih =>
    intro acc h
    simp only [List.map_cons, List.mem_cons, not_or] at h
    rw [List.foldl_cons, ih (analyzeStep acc kg) h.2,
      lookup_analyzeStep_ne shape acc kg h.1]

theorem lookup_analyzeFold (shape : String) :
    ∀ (gs : List (String × List String)) (acc : List (String × List String)),
      (gs.map Prod.fst).Nodup →
      List.lookup shape (gs.foldl analyzeStep acc) =
        match List.lookup shape acc with
        | some v => some v
        | none => analyzeEntry shape gs := by
  intro gs
  induction gs with
  | nil =>
    intro acc _
    cases h : List.lookup shape acc <;> simp [analyzeEntry, h]
  | cons kg rest ih =>
    intro acc hnd
    obtain ⟨k, g⟩ := kg
    simp only [List.map_cons, List.nodup_cons] at hnd
    rw [List.foldl_cons]
    by_cases hk : shape = k
    · subst hk
      rw [lookup_analyzeFold_notmem shape rest (analyzeStep acc (shape, g))
        hnd.1]
      unfold analyzeStep
      by_cases h3 : 3 ≤ g.length
      · simp only [if_pos h3]
        by_cases hv : generate_pattern_variations shape g ≠ []
        · simp only [if_pos hv]
          rw [lookup_append']
          cases hacc : List.lookup shape acc <;>
            simp [hacc, lookup_cons', analyzeEntry, h3, hv]
        · simp only [if_neg hv]
          cases hacc : List.lookup shape acc <;>
            simp [hacc, analyzeEntry, h3, hv]
      · simp only [if_neg h3]
        cases hacc : List.lookup shape acc <;>
          simp [hacc, analyzeEntry, h3]
    · rw [ih (analyzeStep acc (k, g)) hnd.2,
        lookup_analyzeStep_ne shape acc (k, g) hk]
      have hks : ¬ k = shape := fun e => hk e.symm
      cases hacc : List.lookup shape acc <;>
        simp [hacc, analyzeEntry, hks]

theorem analyzeEntry_eq_lookup (shape : String) :
    ∀ gs : List (String × List String),
      analyzeEntry shape gs =
        match List.lookup shape gs with
        | some g =>
          if 3 ≤ g.length ∧ generate_pattern_variations shape g ≠ [] then
            some (generate_pattern_variations shape g)
          else none
        | none => none := by
  intro gs
  induction gs with
  | nil => rfl
  | cons kg rest ih =>
    obtain ⟨k, g⟩ := kg
    by_cases hk : k = shape
    · subst hk
      simp only [analyzeEntry, if_pos rfl, lookup_cons', if_pos rfl]
      by_cases hc : 3 ≤ g.length ∧ generate_pattern_variations k g ≠ [] <;>
        simp [hc]
    · have hne : ¬ shape = k := fun e => hk e.symm
      simp only [analyzeEntry, if_neg hk, lookup_cons', if_neg hne]
      exact ih

theorem idsFold_eq :
    ∀ (examples : List String) (acc : List Nat),
      examples.foldl
        (fun acc u =>
          match firstDashNum u.toList with
          | some n => acc ++ [n]
          | none => acc) acc =
        acc ++ examples.filterMap (fun u => firstDashNum u.toList) := by
  intro examples
  induction examples with
  | nil => intro acc; simp
  | cons u rest ih =>
    intro acc
    rw [List.foldl_cons, List.filterMap_cons]
    cases hx : firstDashNum u.toList with
    | none => simp only [hx]; exact ih acc
    | some n => simp only [hx]; rw [ih (acc ++ [n])]; simp

theorem varFold_eq (ids : List Nat) (b : String) :
    ∀ (r : List Nat) (acc : List String),
      r.foldl
        (fun acc i =>
          if i ∈ ids then acc else acc ++ [b ++ "-" ++ toString i]) acc =
        acc ++ (r.filter (fun i => i ∉ ids)).map
          (fun i => b ++ "-" ++ toString i) := by
  intro r
  induction r with
  | nil => intro acc; simp
  | cons i rest ih =>
    intro acc
    by_cases hi : i ∈ ids
    · rw [List.foldl_cons, if_pos hi, ih acc]
      congr 2
      simp [hi]
    · rw [List.foldl_cons, if_neg hi, ih (acc ++ [b ++ "-" ++ toString i])]
      rw [show List.filter (fun i => decide (i ∉ ids)) (i :: rest) =
          i :: List.filter (fun i => decide (i ∉ ids)) rest by simp [hi]]
      simp

/-- The `_generate_pattern_variations`, characterised as the spec phrases it:
one candidate per integer of `[max(1, min − 10), min + 50)` not among the
collected first-dash IDs, substituted into the first example's dash base;
nothing unless at least three IDs were collected. -/
theorem generate_pattern_variations_eq (pattern : String)
    (examples : List String) :
    generate_pattern_variations pattern examples =
      (if 3 ≤ (examples.filterMap (fun u => firstDashNum u.toList)).length then
        ((List.range'
            (max 1 (listMin (examples.filterMap (fun u => firstDashNum u.toList)) - 10))
            (listMin (examples.filterMap (fun u => firstDashNum u.toList)) + 50 -
              max 1 (listMin (examples.filterMap (fun u => firstDashNum u.toList)) - 10))).filter
          (fun i => i ∉ examples.filterMap (fun u => firstDashNum u.toList))).map
          (fun i => rsplitDashBase (examples.headD "") ++ "-" ++ toString i)
      else []) := by
  unfold generate_pattern_variations
  rw [idsFold_eq examples []]
  rw [List.nil_append]
  by_cases h3 : 3 ≤ (examples.filterMap (fun u => firstDashNum u.toList)).length
  · rw [if_pos h3, if_pos h3]
    rw [varFold_eq]
    rw [List.nil_append]
  · rw [if_neg h3, if_neg h3]

/-- Claim C6, counterexample: Three URLs sharing the recognised
`/node/{id}` shape (a path shape with one numeric segment) produce *no*
candidates at all: `_generate_pattern_variations` collects IDs with
`re.search(r'-(\d+)', url)`, and `/node/N` URLs contain no dash-number,
so the claimed range `[max(1, 1−10), 1+50)` is never emitted. -/
theorem c6_pattern_algorithm_counterexample :
    extract_pattern "/node/1" = some "/node/\x7bid\x7d" ∧
    extract_pattern "/node/2" = some "/node/\x7bid\x7d" ∧
    extract_pattern "/node/3" = some "/node/\x7bid\x7d" ∧
    analyze_patterns nodeUrls = [] := by
  decide

/-- Claim C6, amended: For every input list and shape: let `g` be the URLs
of that shape (in input order) and `ids` their first dash-numbers; the
analyzer maps the shape to exactly one candidate per integer `i` of
`[max(1, min(ids) − 10), min(ids) + 50)` with `i ∉ ids` — each candidate
the first example's dash base with `-i` appended — provided `g` has at
least 3 members, at least 3 dash-number IDs were collected, and the
candidate list is non-empty; otherwise the shape is absent from the
result. -/
theorem c6_pattern_algorithm_amended (urls : List String) (shape : String) :
    List.lookup shape (analyze_patterns urls) =
      (let g := urls.filter (fun u => extract_pattern u = some shape)
       let ids := g.filterMap (fun u => firstDashNum u.toList)
       let start := max 1 (listMin ids - 10)
       let cands := ((List.range' start (listMin ids + 50 - start)).filter
           (fun i => i ∉ ids)).map
         (fun i => rsplitDashBase (g.headD "") ++ "-" ++ toString i)
       if 3 ≤ g.length ∧ 3 ≤ ids.length ∧ cands ≠ [] then some cands
       else none) := by
  have hnd := groupPatterns_keys_nodup urls [] (by simp)
  rw [analyze_patterns, lookup_analyzeFold shape (groupPatterns urls []) [] hnd]
  rw [show (match List.lookup shape ([] : List (String × List String)) with
      | some v => some v
      | none => analyzeEntry shape (groupPatterns urls [])) =
      analyzeEntry shape (groupPatterns urls []) from rfl]
  rw [analyzeEntry_eq_lookup shape (groupPatterns urls [])]
  rw [lookup_groupPatterns shape urls []]
  rw [show (match List.lookup shape ([] : List (String × List String)) with
      | some g =>
        some (g ++ urls.filter (fun u => extract_pattern u = some shape))
      | none =>
        if urls.filter (fun u => extract_pattern u = some shape) = [] then none
        else some (urls.filter (fun u => extract_pattern u = some shape))) =
      (if urls.filter (fun u => extract_pattern u = some shape) = [] then none
       else some (urls.filter (fun u => extract_pattern u = some shape)))
    from rfl]
  by_cases hge : urls.filter (fun u => extract_pattern u = some shape) = []
  · rw [if_pos hge]
    simp [hge]
  · rw [if_neg hge]
    rw [show (match some (urls.filter (fun u => extract_pattern u = some shape)) with
        | some g =>
          if 3 ≤ g.length ∧ generate_pattern_variations shape g ≠ [] then
            some (generate_pattern_variations shape g)
          else none
        | none => none) =
        (if 3 ≤ (urls.filter (fun u => extract_pattern u = some shape)).length ∧
            generate_pattern_variations shape
              (urls.filter (fun u => extract_pattern u = some shape)) ≠ [] then
          some (generate_pattern_variations shape
            (urls.filter (fun u => extract_pattern u = some shape)))
        else none) from rfl]
    rw [generate_pattern_variations_eq]
    by_cases h3 : 3 ≤ ((urls.filter (fun u => extract_pattern u = some shape)).filterMap
        (fun u => firstDashNum u.toList)).length
    · rw [if_pos h3]
      by_cases hlen : 3 ≤ (urls.filter (fun u => extract_pattern u = some shape)).length
      · simp only [hlen, h3, true_and]
      · simp only [hlen, false_and, if_false]
    · rw [if_neg h3]
      rw [show (if (3 ≤ (urls.filter (fun u => extract_pattern u = some shape)).length ∧
            (([] : List String) ≠ [])) then some ([] : List String) else none) = none
        from if_neg (fun hc => hc.2 rfl)]
      exact (if_neg (fun hc => h3 hc.2.1)).symm

end Mapsite
